import Mathlib

/-!
# Verification of the Roadways Ledger backend (`src/server.js`)

A shallow embedding of the single-file Express/Postgres backend:
the JSON value model, the `parseNumeric` helper (built on ECMAScript
`parseFloat`), JS truthiness (used by the Create validation gate), the
`bilty_data` table as a list of rows, and the five route handlers
(`GET /api/bilty`, `POST /api/bilty`, `PUT /api/bilty/:id`,
`DELETE /api/bilty/:id`), each as a pure function from the request and
the store state to an HTTP response and the next store state.

JS numbers are modelled as exact decimals extended with NaN and the two
infinities; machine-float rounding is outside every claim considered here.
-/

/-- A JS number as seen by this service: NaN, ±Infinity, or a finite value.
A finite value `finite m e` denotes the exact decimal `m * 10 ^ e`; every
value built by this development is canonical (`m` not divisible by 10
unless it is 0, in which case `e = 0`), so equality of representations is
equality of the denoted numbers. -/
inductive JSNum where
  | nan : JSNum
  | posInf : JSNum
  | negInf : JSNum
  | finite : Int → Int → JSNum
deriving DecidableEq

/-- Strip factors of 10 out of the mantissa into the exponent; `fuel`
bounds the recursion and any `fuel ≥` the digit count of `m` is enough. -/
def strip10 (fuel : Nat) (m : Nat) (e : Int) : Nat × Int :=
  match fuel with
  | 0 => (m, e)
  | f + 1 => if m ≠ 0 ∧ m % 10 = 0 then strip10 f (m / 10) (e + 1) else (m, e)

/-- The canonical finite JS number denoting `m * 10 ^ e`. -/
def mkFinite (m : Int) (e : Int) : JSNum :=
  if m = 0 then JSNum.finite 0 0
  else
    let p := strip10 m.natAbs m.natAbs e
    JSNum.finite (if m < 0 then -(p.1 : Int) else (p.1 : Int)) p.2

/-- A JSON-decoded JS value as it appears in `req.body` fields and SQL
parameters: `undefined` is a destructured field absent from the body. -/
inductive JSValue where
  | undefined : JSValue
  | null : JSValue
  | bool : Bool → JSValue
  | str : String → JSValue
  | num : JSNum → JSValue
deriving DecidableEq

/-- The whitespace characters `parseFloat` skips before the number
(the common subset of ECMAScript StrWhiteSpace). -/
def isJsSpace (c : Char) : Bool :=
  c == ' ' || c == '\t' || c == '\n' || c == '\r'

/-- Value of a digit string, most significant first. -/
def digitsVal (ds : List Char) : Nat :=
  ds.foldl (fun a c => a * 10 + (c.toNat - 48)) 0

/-- Split off the leading run of decimal digits. -/
def takeDigits (cs : List Char) : List Char × List Char :=
  (cs.takeWhile Char.isDigit, cs.dropWhile Char.isDigit)

/-- Exponent part of a decimal literal, per `parseFloat`: an `e`/`E`
followed by an optional sign and at least one digit; anything less is
trailing garbage and contributes exponent 0. -/
def parseExponent (cs : List Char) : Int :=
  match cs with
  | c :: rest =>
    if c == 'e' || c == 'E' then
      match rest with
      | '+' :: r2 =>
        let ds := (takeDigits r2).1
        if ds.isEmpty then 0 else (digitsVal ds : Int)
      | '-' :: r2 =>
        let ds := (takeDigits r2).1
        if ds.isEmpty then 0 else -(digitsVal ds : Int)
      | _ =>
        let ds := (takeDigits rest).1
        if ds.isEmpty then 0 else (digitsVal ds : Int)
    else 0
  | [] => 0

/-- ECMAScript `parseFloat` on a string: skip leading whitespace, read an
optional sign, then the longest prefix that is a StrDecimalLiteral
(`Infinity`, or digits with optional fraction and exponent); trailing
garbage is ignored; no parseable prefix gives NaN. -/
def strToNum (s : String) : JSNum :=
  let cs := s.toList.dropWhile isJsSpace
  let sp : Bool × List Char :=
    match cs with
    | '+' :: r => (true, r)
    | '-' :: r => (false, r)
    | _ => (true, cs)
  let pos := sp.1
  let cs1 := sp.2
  if cs1.take 8 = "Infinity".toList then
    if pos then JSNum.posInf else JSNum.negInf
  else
    let ip := takeDigits cs1
    let fp : List Char × List Char :=
      match ip.2 with
      | '.' :: r => takeDigits r
      | _ => ([], ip.2)
    if ip.1.isEmpty && fp.1.isEmpty then JSNum.nan
    else
      let e := parseExponent fp.2
      let m0 : Int := (digitsVal ip.1 * 10 ^ fp.1.length + digitsVal fp.1 : Nat)
      mkFinite (if pos then m0 else -m0) (e - (fp.1.length : Int))

/-- JS `parseFloat(value)`: the argument is converted to a string and the
string is parsed. For a number argument the ToString/parse round trip is
the identity (`NaN`/`Infinity` stringify to literals that parse back to
themselves), so that case is the identity directly. -/
def parseFloat (v : JSValue) : JSNum :=
  match v with
  | .num x => x
  | .undefined => strToNum "undefined"
  | .null => strToNum "null"
  | .bool b => strToNum (if b then "true" else "false")
  | .str s => strToNum s

/-- JS `isNaN` on a number. -/
def jsIsNaN : JSNum → Bool
  | .nan => true
  | _ => false

/-- `src/server.js` lines 51-54: `parseNumeric`, converting blank or
unparseable input to SQL null (`none`), otherwise the parsed number. -/
def parseNumeric (value : JSValue) : Option JSNum :=
  let num := parseFloat value
  if jsIsNaN num then none else some num

/-- JS ToBoolean (truthiness), as used by `!bilty_sl_no || !weight`:
`undefined`, `null`, `false`, `""`, `0` and `NaN` are falsy. -/
def truthy : JSValue → Bool
  | .undefined => false
  | .null => false
  | .bool b => b
  | .str s => !s.isEmpty
  | .num n =>
    match n with
    | .nan => false
    | .finite m _ => m != 0
    | _ => true

/-- A parsed JSON request body: field names with their values. -/
abbrev JsonObj : Type := List (String × JSValue)

/-- Destructuring a field out of `req.body`: the value under the key
(last occurrence wins, as in `JSON.parse`), `undefined` when absent. -/
def getField (body : JsonObj) (k : String) : JSValue :=
  match body.reverse.find? (fun p => p.1 == k) with
  | some p => p.2
  | none => JSValue.undefined

/-- node-postgres parameter conversion: an `undefined` parameter is sent
as SQL NULL; every other value is passed through. -/
def toSqlParam : JSValue → JSValue
  | .undefined => JSValue.null
  | v => v

/-- The fifteen data columns of `bilty_data`, in the order of the INSERT
and UPDATE statements; the six decimal columns hold a number or SQL null. -/
structure Values where
  bilty_sl_no : JSValue
  lr_no : JSValue
  bill_no : JSValue
  bill_date : JSValue
  truck_no : JSValue
  destination : JSValue
  weight : Option JSNum
  freight : Option JSNum
  diesel : Option JSNum
  total_adv : Option JSNum
  balance : Option JSNum
  pump_name : JSValue
  payment_officer : JSValue
  damage_if_any : JSValue
  margin : Option JSNum
deriving DecidableEq

/-- The `values` array built identically by the POST and PUT handlers:
each field destructured from `req.body`, the six decimal fields through
`parseNumeric`, the rest passed as SQL parameters as given. -/
def rowValues (body : JsonObj) : Values :=
  { bilty_sl_no := toSqlParam (getField body "bilty_sl_no")
    lr_no := toSqlParam (getField body "lr_no")
    bill_no := toSqlParam (getField body "bill_no")
    bill_date := toSqlParam (getField body "bill_date")
    truck_no := toSqlParam (getField body "truck_no")
    destination := toSqlParam (getField body "destination")
    weight := parseNumeric (getField body "weight")
    freight := parseNumeric (getField body "freight")
    diesel := parseNumeric (getField body "diesel")
    total_adv := parseNumeric (getField body "total_adv")
    balance := parseNumeric (getField body "balance")
    pump_name := toSqlParam (getField body "pump_name")
    payment_officer := toSqlParam (getField body "payment_officer")
    damage_if_any := toSqlParam (getField body "damage_if_any")
    margin := parseNumeric (getField body "margin") }

/-- A persisted `bilty_data` row: the data columns plus the
store-assigned `id` primary key. -/
structure Row extends Values where
  id : Int
deriving DecidableEq

/-- The persistent store: the rows of `bilty_data` plus the sequence
value behind the auto-incrementing `id`. -/
structure Store where
  rows : List Row
  nextId : Int
deriving DecidableEq

/-- A Postgres error as surfaced by node-postgres: the SQLSTATE `code`,
the human-readable `message`, and (for not-null violations) the `column`. -/
structure DbError where
  code : Option String
  message : String
  column : Option String
deriving DecidableEq

/-- The duplicate-key error Postgres raises on the `bilty_sl_no`
uniqueness constraint (SQLSTATE 23505). -/
def dupKeyError : DbError :=
  { code := some "23505"
    message := "duplicate key value violates unique constraint \"bilty_data_bilty_sl_no_key\""
    column := none }

/-- The error Postgres raises when a non-numeric string reaches the
integer `id` column (SQLSTATE 22P02). -/
def invalidTextError (idStr : String) : DbError :=
  { code := some "22P02"
    message := "invalid input syntax for type integer: \"" ++ idStr ++ "\""
    column := none }

/-- Postgres int4 input parsing for the `id = $n` parameter: optional
surrounding spaces, optional sign, at least one digit, nothing else. -/
def pgParseInt (s : String) : Option Int :=
  let cs := s.toList.dropWhile (fun c => c == ' ')
  let sp : Int × List Char :=
    match cs with
    | '-' :: r => (-1, r)
    | '+' :: r => (1, r)
    | _ => (1, cs)
  let ds := takeDigits sp.2
  if ds.1.isEmpty then none
  else if (ds.2.dropWhile (fun c => c == ' ')).isEmpty then some (sp.1 * (digitsVal ds.1 : Int))
  else none

/-- SQL-level uniqueness clash for `bilty_sl_no` against a set of rows
(SQL NULLs never clash). -/
def uniqueClash (rows : List Row) (v : JSValue) : Bool :=
  v != JSValue.null && rows.any (fun r => r.bilty_sl_no == v)

/-- Modelled from the spec: the store schema of §6 — `bilty_data` with an
auto-incrementing `id` primary key and a uniqueness constraint on
`bilty_sl_no` (the schema itself ships with the database, not with
`src/server.js`). `INSERT ... RETURNING *` appends a row under the next
sequence id, or raises the duplicate-key error. -/
def dbInsert (s : Store) (v : Values) : Except DbError (Row × Store) :=
  if uniqueClash s.rows v.bilty_sl_no then Except.error dupKeyError
  else
    let r : Row := { toValues := v, id := s.nextId }
    Except.ok (r, { rows := s.rows ++ [r], nextId := s.nextId + 1 })

/-- Modelled from the spec: `UPDATE bilty_data SET ... WHERE id = $16
RETURNING *` against the §6 schema. The raw path string is coerced to an
integer by the store (raising 22P02 when it is not one); zero matched
rows yield an empty result; a `bilty_sl_no` collision with another row
raises the duplicate-key error; otherwise every data column of the
matched row is overwritten. -/
def dbUpdate (s : Store) (idStr : String) (v : Values) : Except DbError (Option (Row × Store)) :=
  match pgParseInt idStr with
  | none => Except.error (invalidTextError idStr)
  | some i =>
    match s.rows.find? (fun r => r.id == i) with
    | none => Except.ok none
    | some _ =>
      if uniqueClash (s.rows.filter (fun r => r.id != i)) v.bilty_sl_no then
        Except.error dupKeyError
      else
        let newRow : Row := { toValues := v, id := i }
        Except.ok (some (newRow, { s with rows := s.rows.map (fun r => if r.id == i then newRow else r) }))

/-- Modelled from the spec: `DELETE FROM bilty_data WHERE id = $1
RETURNING id`. The raw path string is coerced to an integer (raising
22P02 when it is not one); the result's row count is the number of rows
matched, and matched rows are removed. -/
def dbDelete (s : Store) (idStr : String) : Except DbError (Option Store) :=
  match pgParseInt idStr with
  | none => Except.error (invalidTextError idStr)
  | some i =>
    if s.rows.countP (fun r => r.id == i) = 0 then Except.ok none
    else Except.ok (some { s with rows := s.rows.filter (fun r => r.id != i) })

/-- `SELECT * FROM bilty_data ORDER BY id DESC`: the stored rows sorted
by `id` descending. -/
def dbSelectAll (s : Store) : List Row :=
  List.insertionSort (fun a b => b.id ≤ a.id) s.rows

/-- An HTTP response body as the handlers produce them. -/
inductive RespBody where
  | errorMsg : String → RespBody
  | record : Row → RespBody
  | records : List Row → RespBody
  | empty : RespBody
deriving DecidableEq

/-- An HTTP response: status code and JSON (or empty) body. -/
structure Response where
  status : Nat
  body : RespBody
deriving DecidableEq

/-- `src/server.js` lines 60-68: the GET handler, from the outcome of the
SELECT to the response (200 with the rows, or 500 with a generic message
that does not include the fault). -/
def getBilty (result : Except DbError (List Row)) : Response :=
  match result with
  | .ok rows => { status := 200, body := RespBody.records rows }
  | .error _ => { status := 500, body := RespBody.errorMsg "Server error fetching bilty data." }

/-- The GET route end to end against the store. -/
def listBilty (s : Store) : Response :=
  getBilty (Except.ok (dbSelectAll s))

/-- `src/server.js` lines 102-113: the POST handler's catch block,
classifying the store error by its SQLSTATE code (the 23502 message is
the template literal over `err.column`, which prints `undefined` when
the field is absent). -/
def createCatch (e : DbError) : Response :=
  if e.code == some "23505" then
    { status := 409, body := RespBody.errorMsg "Bilty SL No. already exists. Please use a unique number." }
  else if e.code == some "23502" then
    { status := 400
      body := RespBody.errorMsg ("Missing required data for column: " ++
        (match e.column with | some c => c | none => "undefined")) }
  else
    { status := 500, body := RespBody.errorMsg ("Server error: " ++ e.message) }

/-- `src/server.js` lines 72-114: the POST handler. The validation gate
`!bilty_sl_no || !weight` fires on JS-falsy raw inputs before any
coercion; otherwise the INSERT runs and errors go through the catch
block. -/
def postBilty (s : Store) (body : JsonObj) : Response × Store :=
  if !truthy (getField body "bilty_sl_no") || !truthy (getField body "weight") then
    ({ status := 400, body := RespBody.errorMsg "Bilty SL No. and Weight are required." }, s)
  else
    match dbInsert s (rowValues body) with
    | .ok (r, s1) => ({ status := 201, body := RespBody.record r }, s1)
    | .error e => (createCatch e, s)

/-- `src/server.js` lines 117-152: the PUT handler. No validation gate;
every store error maps to 500 with the fault text; an empty UPDATE
result maps to 404. -/
def putBilty (s : Store) (idStr : String) (body : JsonObj) : Response × Store :=
  match dbUpdate s idStr (rowValues body) with
  | .error e => ({ status := 500, body := RespBody.errorMsg ("Server error: " ++ e.message) }, s)
  | .ok none => ({ status := 404, body := RespBody.errorMsg "Bilty entry not found." }, s)
  | .ok (some (r, s1)) => ({ status := 200, body := RespBody.record r }, s1)

/-- `src/server.js` lines 155-167: the DELETE handler. A zero row count
maps to 404; success is 204 with an empty body; store errors map to a
generic 500. -/
def deleteBilty (s : Store) (idStr : String) : Response × Store :=
  match dbDelete s idStr with
  | .error _ => ({ status := 500, body := RespBody.errorMsg "Server error deleting bilty entry." }, s)
  | .ok none => ({ status := 404, body := RespBody.errorMsg "Bilty entry not found." }, s)
  | .ok (some s1) => ({ status := 204, body := RespBody.empty }, s1)

/-- The spec's §4.3 notion of a "missing/empty" raw field: absent
(`undefined`), `null`, or the empty string. -/
def missingOrEmpty : JSValue → Bool
  | .undefined => true
  | .null => true
  | .str s => s.isEmpty
  | _ => false

/-- The fifteen body field names the handlers read; every other field of
the request body is ignored. -/
def biltyFields : List String :=
  ["bilty_sl_no", "lr_no", "bill_no", "bill_date", "truck_no", "destination",
   "weight", "freight", "diesel", "total_adv", "balance", "pump_name",
   "payment_officer", "damage_if_any", "margin"]

/-- The empty store, as after table creation. -/
def emptyStore : Store := { rows := [], nextId := 1 }

/-- A Create body whose two required fields are both present and
non-empty, the weight being the number 0. -/
def zeroWeightBody : JsonObj :=
  [("bilty_sl_no", JSValue.str "BLT-1"), ("weight", JSValue.num (JSNum.finite 0 0))]

/-- A Create body exercising the success path: both required fields
truthy, one optional string field supplied, one unknown field present. -/
def demoBody : JsonObj :=
  [("bilty_sl_no", JSValue.str "BLT-7"), ("weight", JSValue.str "12.5"),
   ("truck_no", JSValue.str "UP70-1234"), ("bogus", JSValue.str "ignored")]

/-- The row the store assigns to `demoBody` on an empty store. -/
def demoRow : Row := { toValues := rowValues demoBody, id := 1 }

/-- The store after inserting `demoBody` into the empty store. -/
def demoStore1 : Store := { rows := [demoRow], nextId := 2 }

/-- A two-row store whose rows carry `bilty_sl_no` "A" and "B". -/
def clashStore : Store :=
  { rows :=
      [{ toValues := rowValues [("bilty_sl_no", JSValue.str "A"), ("weight", JSValue.str "1")], id := 1 },
       { toValues := rowValues [("bilty_sl_no", JSValue.str "B"), ("weight", JSValue.str "2")], id := 2 }]
    nextId := 3 }

/-- An Update body that renames row 2's `bilty_sl_no` to row 1's. -/
def clashBody : JsonObj := [("bilty_sl_no", JSValue.str "A"), ("weight", JSValue.str "2")]

/-!
## C1 — the Create validation gate
-/

/-- C1 counterexample: in the request `{bilty_sl_no: "BLT-1", weight: 0}`
both required fields are present and non-empty, yet Create responds
HTTP 400 — the gate `!bilty_sl_no || !weight` tests JS truthiness and the
number 0 is falsy, so "400 iff missing/empty" fails, as does "any
non-empty weight value passes the gate". -/
theorem create_gate_cex :
    (postBilty emptyStore zeroWeightBody).1.status = 400
    ∧ missingOrEmpty (getField zeroWeightBody "bilty_sl_no") = false
    ∧ missingOrEmpty (getField zeroWeightBody "weight") = false := by decide

/-- C1 (amended): Create responds HTTP 400 with the required-fields
message and leaves the store unchanged iff the raw `bilty_sl_no` or the
raw `weight` is JS-falsy — missing, `null`, the empty string, but also
the number 0, NaN, or `false`. The check runs on the raw input before
numeric coercion, so any truthy weight value — numeric or not — passes
the gate. -/
theorem create_gate_spec (s : Store) (body : JsonObj) :
    postBilty s body =
      ({ status := 400, body := RespBody.errorMsg "Bilty SL No. and Weight are required." }, s)
    ↔ (truthy (getField body "bilty_sl_no") = false ∨ truthy (getField body "weight") = false) := by
  constructor
  · intro h
    by_cases h1 : truthy (getField body "bilty_sl_no")
    · by_cases h2 : truthy (getField body "weight")
      · exfalso
        simp only [postBilty, h1, h2, Bool.not_true, Bool.or_self, if_false,
          Bool.false_eq_true, ite_false] at h
        rcases hins : dbInsert s (rowValues body) with e | p
        · rw [hins] at h
          have he : e = dupKeyError := by
            simp only [dbInsert] at hins
            split at hins
            · exact ((Except.error.injEq _ _).mp hins).symm
            · exact absurd hins (by simp)
          subst he
          have hne : createCatch dupKeyError ≠
              { status := 400, body := RespBody.errorMsg "Bilty SL No. and Weight are required." } := by
            decide
          exact hne (congrArg Prod.fst h)
        · rw [hins] at h
          simp at h
      · exact Or.inr (by simpa using h2)
    · exact Or.inl (by simpa using h1)
  · rintro (h | h) <;> simp [postBilty, h]

/-- C1 witness: a Create body lacking `bilty_sl_no` is rejected with the
400 response and the store is unchanged. -/
theorem create_gate_witness :
    postBilty emptyStore [("weight", JSValue.str "5")] =
      ({ status := 400, body := RespBody.errorMsg "Bilty SL No. and Weight are required." },
        emptyStore) :=
  (create_gate_spec emptyStore [("weight", JSValue.str "5")]).mpr (Or.inl (by decide))

/-!
## C2 — totality and range of Numeric Coercion
-/

/-- C2 counterexample: `parseFloat("Infinity")` is `Infinity` and
`isNaN(Infinity)` is false, so `parseNumeric` returns positive infinity —
neither a finite decimal number nor the no-value marker. -/
theorem parseNumeric_infinity_cex :
    parseNumeric (JSValue.str "Infinity") = some JSNum.posInf := by decide

/-- C2 (amended): Numeric Coercion is a total function whose result is
the no-value marker, a finite decimal, or one of the two infinities
(reached exactly by inputs parsing to the `Infinity` literal or by
infinite number inputs); it never yields NaN or anything else, and the
empty string, `null`, and `undefined` map to the marker. -/
theorem parseNumeric_total_spec (v : JSValue) :
    (parseNumeric v = none
      ∨ (∃ m e : Int, parseNumeric v = some (JSNum.finite m e))
      ∨ parseNumeric v = some JSNum.posInf
      ∨ parseNumeric v = some JSNum.negInf)
    ∧ ((v = JSValue.null ∨ v = JSValue.undefined ∨ v = JSValue.str "") →
        parseNumeric v = none) := by
  constructor
  · simp only [parseNumeric]
    cases hx : parseFloat v with
    | nan => simp [jsIsNaN]
    | posInf => simp [jsIsNaN]
    | negInf => simp [jsIsNaN]
    | finite m e => exact Or.inr (Or.inl ⟨m, e, by simp [jsIsNaN]⟩)
  · rintro (rfl | rfl | rfl) <;> decide

/-- C2 witness: `null` input maps to the no-value marker. -/
theorem parseNumeric_total_witness : parseNumeric JSValue.null = none :=
  (parseNumeric_total_spec JSValue.null).2 (Or.inl rfl)

/-!
## C3 — classification of store faults by the Create handler
-/

/-- C3: the Create catch block maps a uniqueness violation (SQLSTATE
23505) to HTTP 409 with the message identifying the duplicate field
("Bilty SL No."), a not-null violation (SQLSTATE 23502) to HTTP 400 with
the message naming the offending column, and every other store fault to
HTTP 500 with the underlying fault text in the message; and whenever a
gate-passing Create request gets a store error, the response is exactly
this classification and the store is unchanged. -/
theorem create_store_fault_spec (e : DbError) :
    (e.code = some "23505" →
      createCatch e =
        { status := 409
          body := RespBody.errorMsg "Bilty SL No. already exists. Please use a unique number." })
    ∧ (e.code = some "23502" →
      createCatch e =
        { status := 400
          body := RespBody.errorMsg ("Missing required data for column: " ++
            (match e.column with | some c => c | none => "undefined")) })
    ∧ (e.code ≠ some "23505" → e.code ≠ some "23502" →
      createCatch e =
        { status := 500
          body := RespBody.errorMsg ("Server error: " ++ e.message) })
    ∧ (∀ (s : Store) (body : JsonObj),
        truthy (getField body "bilty_sl_no") = true →
        truthy (getField body "weight") = true →
        ∀ e2 : DbError, dbInsert s (rowValues body) = Except.error e2 →
        postBilty s body = (createCatch e2, s)) := by
  refine ⟨fun h5 => ?_, fun h2 => ?_, fun hn5 hn2 => ?_, fun s body ht1 ht2 e2 hins => ?_⟩
  · simp [createCatch, h5]
  · simp [createCatch, h2]
  · simp only [createCatch]
    rw [if_neg (by simpa using hn5), if_neg (by simpa using hn2)]
  · simp only [postBilty, ht1, ht2, Bool.not_true, Bool.or_self, Bool.false_eq_true,
      ite_false, hins]

/-- C3 witness: the duplicate-key error yields the 409 response. -/
theorem create_store_fault_witness :
    createCatch dupKeyError =
      { status := 409
        body := RespBody.errorMsg "Bilty SL No. already exists. Please use a unique number." } :=
  (create_store_fault_spec dupKeyError).1 rfl

/-!
## C4 — the Create success path
-/

/-- C4: a Create request that passes validation and is accepted by the
store appends exactly one row under the store-assigned id and answers
HTTP 201 with the full persisted record; the six decimal-bearing fields
of that record are `parseNumeric` of the corresponding raw inputs, every
other handled field is stored as given (absent fields becoming SQL
null), and fields outside the fifteen handled names are ignored. -/
theorem create_success_spec (s : Store) (body : JsonObj) (r : Row) (s1 : Store)
    (h1 : truthy (getField body "bilty_sl_no") = true)
    (h2 : truthy (getField body "weight") = true)
    (hdb : dbInsert s (rowValues body) = Except.ok (r, s1)) :
    postBilty s body = ({ status := 201, body := RespBody.record r }, s1)
    ∧ s1.rows = s.rows ++ [r]
    ∧ r.id = s.nextId
    ∧ r.weight = parseNumeric (getField body "weight")
    ∧ r.freight = parseNumeric (getField body "freight")
    ∧ r.diesel = parseNumeric (getField body "diesel")
    ∧ r.total_adv = parseNumeric (getField body "total_adv")
    ∧ r.balance = parseNumeric (getField body "balance")
    ∧ r.margin = parseNumeric (getField body "margin")
    ∧ r.bilty_sl_no = toSqlParam (getField body "bilty_sl_no")
    ∧ r.lr_no = toSqlParam (getField body "lr_no")
    ∧ r.bill_no = toSqlParam (getField body "bill_no")
    ∧ r.bill_date = toSqlParam (getField body "bill_date")
    ∧ r.truck_no = toSqlParam (getField body "truck_no")
    ∧ r.destination = toSqlParam (getField body "destination")
    ∧ r.pump_name = toSqlParam (getField body "pump_name")
    ∧ r.payment_officer = toSqlParam (getField body "payment_officer")
    ∧ r.damage_if_any = toSqlParam (getField body "damage_if_any")
    ∧ (∀ v : JSValue, v ≠ JSValue.undefined → toSqlParam v = v)
    ∧ (∀ body2 : JsonObj,
        (∀ k ∈ biltyFields, getField body2 k = getField body k) →
        postBilty s body2 = postBilty s body) := by
  have hdb0 := hdb
  simp only [dbInsert] at hdb
  split at hdb
  · exact absurd hdb (by simp)
  · simp only [Except.ok.injEq, Prod.mk.injEq] at hdb
    obtain ⟨hr, hs⟩ := hdb
    subst hr
    subst hs
    refine ⟨?_, rfl, rfl, rfl, rfl, rfl, rfl, rfl, rfl, rfl, rfl, rfl, rfl, rfl, rfl, rfl,
      rfl, rfl, ?_, ?_⟩
    · simp only [postBilty, h1, h2, Bool.not_true, Bool.or_self, Bool.false_eq_true,
        ite_false, hdb0]
    · intro v hv
      cases v
      case undefined => exact absurd rfl hv
      all_goals rfl
    · intro body2 hagree
      have hv : rowValues body2 = rowValues body := by
        unfold rowValues
        rw [hagree "bilty_sl_no" (by decide), hagree "lr_no" (by decide),
          hagree "bill_no" (by decide), hagree "bill_date" (by decide),
          hagree "truck_no" (by decide), hagree "destination" (by decide),
          hagree "weight" (by decide), hagree "freight" (by decide),
          hagree "diesel" (by decide), hagree "total_adv" (by decide),
          hagree "balance" (by decide), hagree "pump_name" (by decide),
          hagree "payment_officer" (by decide), hagree "damage_if_any" (by decide),
          hagree "margin" (by decide)]
      unfold postBilty
      rw [hagree "bilty_sl_no" (by decide), hagree "weight" (by decide), hv]

/-- C4 witness: inserting `demoBody` into the empty store persists
`demoRow` (weight coerced to 12.5, unknown field dropped) and answers
201 with it. -/
theorem create_success_witness :
    postBilty emptyStore demoBody = ({ status := 201, body := RespBody.record demoRow }, demoStore1) :=
  (create_success_spec emptyStore demoBody demoRow demoStore1 (by rfl) (by rfl) (by rfl)).1

/-!
## C5 — full-replacement Update on an existing id
-/

/-- C5: an Update whose path id parses and matches a stored row, and
which the store accepts, overwrites every one of the fifteen data fields
of that row with the value built from the request body (the six decimal
fields through `parseNumeric`, omitted fields becoming SQL null rather
than being preserved), keeps the id, applies no presence validation
(the body is arbitrary), and answers HTTP 200 with exactly the updated
record. -/
theorem update_success_spec (s : Store) (idStr : String) (body : JsonObj) (i : Int) (r0 : Row)
    (hid : pgParseInt idStr = some i)
    (hfind : s.rows.find? (fun r => r.id == i) = some r0)
    (hnc : uniqueClash (s.rows.filter (fun r => r.id != i)) (rowValues body).bilty_sl_no = false) :
    putBilty s idStr body =
      ({ status := 200, body := RespBody.record { toValues := rowValues body, id := i } },
        { s with rows := s.rows.map (fun r => if r.id == i then { toValues := rowValues body, id := i } else r) })
    ∧ (rowValues body).weight = parseNumeric (getField body "weight")
    ∧ (rowValues body).freight = parseNumeric (getField body "freight")
    ∧ (rowValues body).diesel = parseNumeric (getField body "diesel")
    ∧ (rowValues body).total_adv = parseNumeric (getField body "total_adv")
    ∧ (rowValues body).balance = parseNumeric (getField body "balance")
    ∧ (rowValues body).margin = parseNumeric (getField body "margin")
    ∧ (rowValues body).bilty_sl_no = toSqlParam (getField body "bilty_sl_no")
    ∧ (rowValues body).lr_no = toSqlParam (getField body "lr_no")
    ∧ (rowValues body).bill_no = toSqlParam (getField body "bill_no")
    ∧ (rowValues body).bill_date = toSqlParam (getField body "bill_date")
    ∧ (rowValues body).truck_no = toSqlParam (getField body "truck_no")
    ∧ (rowValues body).destination = toSqlParam (getField body "destination")
    ∧ (rowValues body).pump_name = toSqlParam (getField body "pump_name")
    ∧ (rowValues body).payment_officer = toSqlParam (getField body "payment_officer")
    ∧ (rowValues body).damage_if_any = toSqlParam (getField body "damage_if_any")
    ∧ (∀ k, getField body k = JSValue.undefined → toSqlParam (getField body k) = JSValue.null) := by
  refine ⟨?_, rfl, rfl, rfl, rfl, rfl, rfl, rfl, rfl, rfl, rfl, rfl, rfl, rfl, rfl, rfl, ?_⟩
  · simp only [putBilty, dbUpdate, hid, hfind, hnc, Bool.false_eq_true, ite_false]
  · intro k hk
    rw [hk]
    rfl

/-- C5 witness: updating row 1 with a body that omits `truck_no` (and
every other field but the two given) replaces all fields, nulling the
omitted ones, and answers 200. -/
theorem update_success_witness :
    putBilty demoStore1 "1" [("bilty_sl_no", JSValue.str "BLT-9"), ("weight", JSValue.str "3")] =
      ({ status := 200
         body := RespBody.record
           { toValues := rowValues [("bilty_sl_no", JSValue.str "BLT-9"), ("weight", JSValue.str "3")]
             id := 1 } },
        { demoStore1 with rows := demoStore1.rows.map (fun r =>
            if r.id == 1 then
              { toValues := rowValues [("bilty_sl_no", JSValue.str "BLT-9"), ("weight", JSValue.str "3")]
                id := 1 }
            else r) }) :=
  (update_success_spec demoStore1 "1" [("bilty_sl_no", JSValue.str "BLT-9"), ("weight", JSValue.str "3")]
    1 demoRow (by rfl) (by rfl) (by rfl)).1

/-!
## C6 — Update on a non-existent id
-/

/-- C6: an Update whose numeric path id matches no stored row answers
HTTP 404 and leaves the store unchanged. -/
theorem update_not_found_spec (s : Store) (idStr : String) (body : JsonObj) (i : Int)
    (hid : pgParseInt idStr = some i)
    (hnone : s.rows.find? (fun r => r.id == i) = none) :
    putBilty s idStr body =
      ({ status := 404, body := RespBody.errorMsg "Bilty entry not found." }, s) := by
  simp only [putBilty, dbUpdate, hid, hnone]

/-- C6 witness: updating id 7 in the single-row demo store yields 404
and the unchanged store. -/
theorem update_not_found_witness :
    putBilty demoStore1 "7" [] =
      ({ status := 404, body := RespBody.errorMsg "Bilty entry not found." }, demoStore1) :=
  update_not_found_spec demoStore1 "7" [] 7 (by rfl) (by rfl)

/-!
## C7 — Delete
-/

/-- C7: for a Delete with a numeric path id — if some row matches, the
response is HTTP 204 with an empty body, exactly the matching rows are
removed (so a subsequent List omits the id, and a second Delete of the
same id answers 404); if no row matches, the response is HTTP 404 and
the store is unchanged. -/
theorem delete_record_spec (s : Store) (idStr : String) (i : Int)
    (hid : pgParseInt idStr = some i) :
    ((∃ r, r ∈ s.rows ∧ r.id = i) →
      deleteBilty s idStr =
        ({ status := 204, body := RespBody.empty },
          { s with rows := s.rows.filter (fun r => r.id != i) })
      ∧ (∀ r, r ∈ dbSelectAll (deleteBilty s idStr).2 → r.id ≠ i)
      ∧ (deleteBilty (deleteBilty s idStr).2 idStr).1.status = 404)
    ∧ ((∀ r, r ∈ s.rows → r.id ≠ i) →
      deleteBilty s idStr =
        ({ status := 404, body := RespBody.errorMsg "Bilty entry not found." }, s)) := by
  constructor
  · rintro ⟨r0, hr0, hr0i⟩
    have hcp : ¬ s.rows.countP (fun r => r.id == i) = 0 := by
      intro h0
      have := List.countP_eq_zero.mp h0 r0 hr0
      simp [hr0i] at this
    have hdel : deleteBilty s idStr =
        ({ status := 204, body := RespBody.empty },
          { s with rows := s.rows.filter (fun r => r.id != i) }) := by
      simp only [deleteBilty, dbDelete, hid]
      rw [if_neg hcp]
    have hgone : ∀ r, r ∈ (s.rows.filter (fun r => r.id != i)) → r.id ≠ i := by
      intro r hr
      have := (List.mem_filter.mp hr).2
      simpa using this
    refine ⟨hdel, ?_, ?_⟩
    · intro r hr
      rw [hdel] at hr
      simp only [dbSelectAll, List.mem_insertionSort] at hr
      exact hgone r hr
    · rw [hdel]
      simp only [deleteBilty, dbDelete, hid]
      rw [if_pos (List.countP_eq_zero.mpr (fun a ha => by simpa using hgone a ha))]
  · intro hno
    have hcp : s.rows.countP (fun r => r.id == i) = 0 :=
      List.countP_eq_zero.mpr (fun a ha => by simpa using hno a ha)
    simp only [deleteBilty, dbDelete, hid]
    rw [if_pos hcp]

/-- C7 witness: deleting row 1 from the single-row demo store answers
204 and empties it; deleting the same id again answers 404. -/
theorem delete_record_witness :
    deleteBilty demoStore1 "1" =
      ({ status := 204, body := RespBody.empty },
        { demoStore1 with rows := demoStore1.rows.filter (fun r => r.id != 1) })
    ∧ (deleteBilty (deleteBilty demoStore1 "1").2 "1").1.status = 404 := by
  have h := (delete_record_spec demoStore1 "1" 1 (by rfl)).1 ⟨demoRow, by decide, by decide⟩
  exact ⟨h.1, h.2.2⟩

/-!
## C8 — List
-/

/-- C8: List answers HTTP 200 with the stored records as a sequence that
is a permutation of the store's rows sorted by id descending (empty when
the store is empty), and any store-access fault yields HTTP 500 with the
fixed generic message, independent of the fault, so the specific fault
is never exposed. -/
theorem list_records_spec (s : Store) :
    listBilty s = { status := 200, body := RespBody.records (dbSelectAll s) }
    ∧ List.Perm (dbSelectAll s) s.rows
    ∧ List.Sorted (fun a b => b.id ≤ a.id) (dbSelectAll s)
    ∧ (s.rows = [] → dbSelectAll s = [])
    ∧ (∀ e : DbError, getBilty (Except.error e) =
        { status := 500, body := RespBody.errorMsg "Server error fetching bilty data." }) := by
  haveI ht : IsTotal Row (fun a b => b.id ≤ a.id) := ⟨fun a b => le_total b.id a.id⟩
  haveI htr : IsTrans Row (fun a b => b.id ≤ a.id) := ⟨fun _ _ _ hab hbc => le_trans hbc hab⟩
  refine ⟨rfl, List.perm_insertionSort _ _, List.sorted_insertionSort _ _, ?_, fun e => rfl⟩
  intro h
  simp [dbSelectAll, h]

/-- C8 witness: on the empty store, List serializes the empty sequence. -/
theorem list_records_witness : dbSelectAll emptyStore = [] :=
  (list_records_spec emptyStore).2.2.2.1 rfl

/-!
## C9 — Update maps every store rejection to 500
-/

/-- C9: the Update handler has no counterpart of the Create handler's
code-based classification — every store rejection of an Update maps to
HTTP 500 with the fault text, whatever the fault class; in particular an
Update colliding with an existing `bilty_sl_no` (a 23505 uniqueness
violation) answers 500, never 409. -/
theorem update_fault_500_spec :
    (∀ (s : Store) (idStr : String) (body : JsonObj) (e : DbError),
        dbUpdate s idStr (rowValues body) = Except.error e →
        putBilty s idStr body =
          ({ status := 500, body := RespBody.errorMsg ("Server error: " ++ e.message) }, s))
    ∧ (putBilty clashStore "2" clashBody).1 =
        { status := 500, body := RespBody.errorMsg ("Server error: " ++ dupKeyError.message) }
    ∧ (putBilty clashStore "2" clashBody).1.status ≠ 409 := by
  refine ⟨fun s idStr body e h => ?_, by decide, by decide⟩
  simp only [putBilty, h]

/-- C9 witness: the colliding Update is answered with 500 and the
duplicate-key fault text, and the store is unchanged. -/
theorem update_fault_500_witness :
    putBilty clashStore "2" clashBody =
      ({ status := 500, body := RespBody.errorMsg ("Server error: " ++ dupKeyError.message) },
        clashStore) :=
  update_fault_500_spec.1 clashStore "2" clashBody dupKeyError (by rfl)

/-!
## C10 — non-numeric path ids reach the store raw and map to 500
-/

/-- C10: Update and Delete hand the path id to the store as an
uninspected string; when it is not a valid integer the store's 22P02
fault comes back and the handlers answer HTTP 500 (with the fault text
for Update, the generic delete message for Delete) — never 404. -/
theorem raw_id_500_spec (s : Store) (idStr : String) (body : JsonObj)
    (h : pgParseInt idStr = none) :
    putBilty s idStr body =
      ({ status := 500
         body := RespBody.errorMsg ("Server error: " ++ (invalidTextError idStr).message) }, s)
    ∧ deleteBilty s idStr =
      ({ status := 500, body := RespBody.errorMsg "Server error deleting bilty entry." }, s)
    ∧ (putBilty s idStr body).1.status ≠ 404
    ∧ (deleteBilty s idStr).1.status ≠ 404 := by
  have h1 : dbUpdate s idStr (rowValues body) = Except.error (invalidTextError idStr) := by
    simp only [dbUpdate, h]
  have h2 : dbDelete s idStr = Except.error (invalidTextError idStr) := by
    simp only [dbDelete, h]
  have e1 : putBilty s idStr body =
      ({ status := 500
         body := RespBody.errorMsg ("Server error: " ++ (invalidTextError idStr).message) }, s) := by
    simp only [putBilty, h1]
  have e2 : deleteBilty s idStr =
      ({ status := 500, body := RespBody.errorMsg "Server error deleting bilty entry." }, s) := by
    simp only [deleteBilty, h2]
  refine ⟨e1, e2, ?_, ?_⟩
  · rw [e1]
    simp
  · rw [e2]
    simp

/-- C10 witness: the non-numeric id "abc" makes both Update and Delete
answer 500 on the demo store. -/
theorem raw_id_500_witness :
    putBilty demoStore1 "abc" [] =
      ({ status := 500
         body := RespBody.errorMsg ("Server error: " ++ (invalidTextError "abc").message) },
        demoStore1)
    ∧ deleteBilty demoStore1 "abc" =
      ({ status := 500, body := RespBody.errorMsg "Server error deleting bilty entry." },
        demoStore1) := by
  have h := raw_id_500_spec demoStore1 "abc" [] (by rfl)
  exact ⟨h.1, h.2.1⟩
